import Mathlib

/-!
# Verification of the crayon rendering core

A shallow embedding, in Lean 4, of the rendering core of the `crayon`
repository: the handle-indexed storage `DataVec`, the `Device`'s
resource create/update/delete and draw-call submission operations
(`src/graphics/backend/device.rs`), and the frame scheduler's timestep
computation (`src/application/engine.rs`).  Machine integers are
modelled as `Nat`/`Int`; fallible operations return `Except`.
-/

deriving instance DecidableEq for Except

namespace Crayon

/-- Modelled from the spec (§3 Data Model): `utils::Handle` is defined
outside the sampled sources; the spec describes it as an opaque
(index, generation) pair.  `DataVec` only ever reads `handle.index()`. -/
structure Handle where
  index : Nat
  generation : Nat
deriving DecidableEq, Repr

/-- The error kinds of `graphics/errors.rs` that the device operations
raise, plus `Msg` for the `bail!(format!(...))` string errors used in
`flush`/`create_pipeline`. -/
inductive DevErr where
  | InvalidHandle
  | DuplicatedHandle
  | OutOfBounds
  | InvalidUpdateStaticResource
  | Msg (s : String)
deriving DecidableEq, Repr

/-! ## DataVec (device.rs lines 664–716)

`DataVec<T>` stores `buf: Vec<Option<T>>` and indexes it with
`handle.index()`. -/

/-- The handle table `DataVec<T>`: a growable array of optional slots. -/
structure DataVec (T : Type) where
  buf : List (Option T)
deriving Repr, DecidableEq

namespace DataVec

/-- Embeds `DataVec::new`. -/
def new (T : Type) : DataVec T := ⟨[]⟩

/-- Embeds `DataVec::get`: `self.buf.get(handle.index()).and_then(|v| v.as_ref())`. -/
def get {T : Type} (dv : DataVec T) (handle : Handle) : Option T :=
  dv.buf[handle.index]?.bind id

/-- Embeds `DataVec::set`: grows `buf` with `None` while `len <= index`, then
writes `Some value` at `index`. -/
def set {T : Type} (dv : DataVec T) (handle : Handle) (value : T) : DataVec T :=
  let grown := dv.buf ++ List.replicate (handle.index + 1 - dv.buf.length) none
  ⟨grown.set handle.index (some value)⟩

/-- Embeds `DataVec::remove`: if `index` is out of range returns `None` and
leaves the table unchanged; otherwise swaps the slot out, returning the
evacuated value and leaving `None` behind.  Returned as
(evacuated value, table afterwards). -/
def remove {T : Type} (dv : DataVec T) (handle : Handle) :
    Option T × DataVec T :=
  if dv.buf.length ≤ handle.index then
    (none, dv)
  else
    (dv.buf[handle.index]?.bind id, ⟨dv.buf.set handle.index none⟩)

end DataVec

end Crayon

namespace Crayon

theorem dataVec_get_set {T : Type} (dv : DataVec T) (h : Handle) (v : T) :
    (dv.set h v).get h = some v := by
  unfold DataVec.get DataVec.set
  simp only
  rw [List.getElem?_set_eq_of_lt]
  · simp
  · have : h.index < dv.buf.length + (h.index + 1 - dv.buf.length) := by omega
    simpa [List.length_append, List.length_replicate] using this

theorem dataVec_get_remove {T : Type} (dv : DataVec T) (h : Handle) :
    ((dv.remove h).2).get h = none := by
  unfold DataVec.get DataVec.remove
  by_cases hle : dv.buf.length ≤ h.index
  · have : dv.buf[h.index]? = none := by
      rw [List.getElem?_eq_none_iff]; exact hle
    simp [hle, this]
  · simp only [hle, if_neg, if_false]
    push_neg at hle
    rw [List.getElem?_set_eq_of_lt]
    · simp
    · simpa using hle

theorem dataVec_remove_returns {T : Type} (dv : DataVec T) (h : Handle) :
    (dv.remove h).1 = dv.get h := by
  unfold DataVec.get DataVec.remove
  by_cases hle : dv.buf.length ≤ h.index
  · have : dv.buf[h.index]? = none := by
      rw [List.getElem?_eq_none_iff]; exact hle
    simp [hle, this]
  · simp [hle]

/-! ## Graphics data model (device.rs lines 17–93)

Setup types (`VertexBufferSetup`, `ViewStateSetup`, …) live in modules
outside the sampled sources; we model exactly the fields the sampled
code branches on, as the spec describes them. -/

/-- Modelled from the spec (§3/§4.3): the buffer-usage hint carried by a
buffer setup; `BufferHint` itself is defined outside the sampled
sources.  Only the `Immutable` case is ever branched on. -/
inductive BufferHint where
  | Immutable
  | Dynamic
deriving DecidableEq, Repr

/-- Modelled from the spec (§4.3): `VertexBufferSetup` is defined outside
the sampled sources; the sampled code uses its hint and its allocated
byte size `setup.len()`, modelled as the field `len`. -/
structure VertexBufferSetup where
  hint : BufferHint
  len : Nat
deriving DecidableEq, Repr

/-- Modelled from the spec (§4.3): `IndexBufferSetup`, analogous to
`VertexBufferSetup`. -/
structure IndexBufferSetup where
  hint : BufferHint
  len : Nat
deriving DecidableEq, Repr

/-- A uniform value.  `UniformVariable` is defined outside the sampled
sources; the sampled code only constructs `UniformVariable::I32` (for
texture slots) and otherwise passes values through opaquely. -/
inductive UniformVariable where
  | I32 (v : Int)
  | Other (tag : Nat)
deriving DecidableEq, Repr

/-- Modelled from the spec (§3): `ViewStateSetup` is defined outside the
sampled sources; the sampled code branches on the optional framebuffer
target, the view ordering priority `order` and the `sequence` flag
(clear color/depth/stencil and the viewport are forwarded verbatim to
the backend visitor). -/
structure ViewStateSetup where
  framebuffer : Option Handle
  order : Nat
  sequence : Bool
deriving DecidableEq, Repr

/-- Embeds `DrawCall` (device.rs lines 67–79).  The two `TaskBufferPtr` fields
are opaque offsets into the frame's `TaskBuffer`, modelled as `Nat`;
`from` is renamed `from_` (`from` is a Lean keyword). -/
structure DrawCall where
  priority : Nat
  view : Handle
  pipeline : Handle
  uniforms : Nat
  textures : Nat
  vb : Handle
  ib : Option Handle
  primitive : Nat
  from_ : Nat
  len : Nat
deriving DecidableEq, Repr

/-- Embeds `ViewStateObject` (device.rs lines 38–42); the `RefCell` interior
mutability becomes explicit state passing. -/
structure ViewStateObject where
  drawcalls : List DrawCall
  setup : ViewStateSetup
deriving DecidableEq, Repr

/-! ## View ordering in `Device::flush` (device.rs lines 160–185) -/

/-- The order priority the `flush` sort comparator reads for slot `i`:
`self.views.buf[i].as_ref().unwrap().setup.order`.  The comparator is
only ever applied to occupied slots, so the default for a vacant slot
is immaterial. -/
def orderAt (buf : List (Option ViewStateObject)) (i : Nat) : Nat :=
  match buf[i]?.bind id with
  | some vo => vo.setup.order
  | none => 0

/-- The total preorder the `ordered_views.sort_by` comparator induces:
`lhs` may precede `rhs` iff `rhs.order ≤ lhs.order` (descending by
order; the Rust comparator is `rv.setup.order.cmp(&lv.setup.order)`). -/
def viewDescLE (buf : List (Option ViewStateObject)) (lhs rhs : Nat) : Prop :=
  orderAt buf rhs ≤ orderAt buf lhs

instance (buf : List (Option ViewStateObject)) : DecidableRel (viewDescLE buf) :=
  fun _ _ => Nat.decLe _ _

instance (buf : List (Option ViewStateObject)) : IsTotal Nat (viewDescLE buf) :=
  ⟨fun a b => Nat.le_total (orderAt buf b) (orderAt buf a)⟩

instance (buf : List (Option ViewStateObject)) : IsTrans Nat (viewDescLE buf) :=
  ⟨fun _ _ _ hab hbc => Nat.le_trans hbc hab⟩

/-- The partition loop of `flush` (device.rs lines 162–171):
`for (i, v) in self.views.buf.iter().enumerate()`, pushing occupied
indices with `order == 0` into `views` (first component) and the rest
into `ordered_views` (second component), in increasing index order.
The enumeration counter is the explicit first argument. -/
def collectViews : Nat → List (Option ViewStateObject) → List Nat × List Nat
  | _, [] => ([], [])
  | i, none :: rest => collectViews (i + 1) rest
  | i, some vo :: rest =>
    let p := collectViews (i + 1) rest
    if vo.setup.order = 0 then (i :: p.1, p.2) else (p.1, i :: p.2)

/-- The view processing order of `Device::flush`: the explicit-order
views sorted descending by `order` (Rust's `sort_by` is stable; any two
stable sorts under the same total preorder agree, so it is modelled by
stable insertion sort), followed by the default-order views in
table-iteration order (`ordered_views.append(&mut views)`). -/
def flushViewOrder (buf : List (Option ViewStateObject)) : List Nat :=
  let p := collectViews 0 buf
  List.insertionSort (viewDescLE buf) p.2 ++ p.1

/-- Spec-side description: the indices of the occupied view slots
satisfying `p`, in table-iteration order. -/
def occupiedWhere (p : ViewStateObject → Bool) :
    Nat → List (Option ViewStateObject) → List Nat
  | _, [] => []
  | i, none :: rest => occupiedWhere p (i + 1) rest
  | i, some vo :: rest =>
    if p vo then i :: occupiedWhere p (i + 1) rest
    else occupiedWhere p (i + 1) rest

/-! ## Draw-call ordering within a view (device.rs lines 209–217) -/

/-- The total preorder induced by the draw-call sort comparator
`rhs.priority.cmp(&lhs.priority)` (descending by priority). -/
def dcDescLE (lhs rhs : DrawCall) : Prop :=
  rhs.priority ≤ lhs.priority

instance : DecidableRel dcDescLE := fun _ _ => Nat.decLe _ _

instance : IsTotal DrawCall dcDescLE :=
  ⟨fun a b => Nat.le_total b.priority a.priority⟩

instance : IsTrans DrawCall dcDescLE :=
  ⟨fun _ _ _ hab hbc => Nat.le_trans hbc hab⟩

/-- The order in which a view's queued draw calls are realized
(device.rs lines 209–217): unless the view's setup has the `sequence`
flag, the queue is sorted stably by descending priority; a sequence
view keeps submission order. -/
def sortBucketDrawcalls (vo : ViewStateObject) : List DrawCall :=
  if !vo.setup.sequence then
    List.insertionSort dcDescLE vo.drawcalls
  else
    vo.drawcalls

/-- Example view table for C1: views A (order 0), B (order 5),
C (order 10) at slots 0, 1, 2. -/
def exampleViewTable : List (Option ViewStateObject) :=
  [some ⟨[], ⟨none, 0, false⟩⟩,
   some ⟨[], ⟨none, 5, false⟩⟩,
   some ⟨[], ⟨none, 10, false⟩⟩]

/-- A draw call carrying only a priority, for the C2 example. -/
def exampleDrawCall (p : Nat) : DrawCall :=
  ⟨p, ⟨0, 0⟩, ⟨0, 0⟩, 0, 0, ⟨0, 0⟩, none, 0, 0, 0⟩

/-- A view whose queue holds draw calls with priorities [3, 1, 2] in
submission order, with the given `sequence` flag. -/
def exampleView (seq : Bool) : ViewStateObject :=
  ⟨[exampleDrawCall 3, exampleDrawCall 1, exampleDrawCall 2], ⟨none, 0, seq⟩⟩

theorem collectViews_eq (n : Nat) (l : List (Option ViewStateObject)) :
    collectViews n l =
      (occupiedWhere (fun vo => vo.setup.order == 0) n l,
       occupiedWhere (fun vo => vo.setup.order != 0) n l) := by
  induction l generalizing n with
  | nil => rfl
  | cons v rest ih =>
    cases v with
    | none => simpa [collectViews, occupiedWhere] using ih (n + 1)
    | some vo =>
      by_cases h : vo.setup.order = 0 <;>
        simp [collectViews, occupiedWhere, h, ih (n + 1)]

theorem occupiedWhere_split_perm (n : Nat) (l : List (Option ViewStateObject)) :
    (occupiedWhere (fun vo => vo.setup.order != 0) n l ++
      occupiedWhere (fun vo => vo.setup.order == 0) n l).Perm
      (occupiedWhere (fun _ => true) n l) := by
  induction l generalizing n with
  | nil => simp [occupiedWhere]
  | cons v rest ih =>
    cases v with
    | none => simpa [occupiedWhere] using ih (n + 1)
    | some vo =>
      by_cases h : vo.setup.order = 0
      · simp only [occupiedWhere, h]
        simp only [beq_self_eq_true, if_true, bne_self_eq_false, Bool.false_eq_true,
          if_false]
        exact List.perm_middle.trans ((ih (n + 1)).cons n)
      · have hb : (vo.setup.order == 0) = false := by simpa using h
        have hb' : (vo.setup.order != 0) = true := by simpa using h
        simp only [occupiedWhere, hb, hb', Bool.false_eq_true, if_false, if_true,
          List.cons_append]
        exact ((ih (n + 1)).cons n)

/-- C1: `Device::flush` processes exactly the occupied view slots, the
views with non-zero `order` first, stably sorted by descending `order`,
followed by the views with `order` zero in table-iteration order; on
the table {A: 0, B: 5, C: 10} at slots 0, 1, 2 the order is C, B, A. -/
theorem C1_flush_view_order (buf : List (Option ViewStateObject)) :
    flushViewOrder buf =
      List.insertionSort (viewDescLE buf)
          (occupiedWhere (fun vo => vo.setup.order != 0) 0 buf) ++
        occupiedWhere (fun vo => vo.setup.order == 0) 0 buf ∧
    (flushViewOrder buf).Perm (occupiedWhere (fun _ => true) 0 buf) ∧
    (List.insertionSort (viewDescLE buf)
        (occupiedWhere (fun vo => vo.setup.order != 0) 0 buf)).Sorted (viewDescLE buf) ∧
    flushViewOrder exampleViewTable = [2, 1, 0] := by
  refine ⟨?_, ?_, List.sorted_insertionSort _ _, by decide⟩
  · unfold flushViewOrder
    rw [collectViews_eq]
  · unfold flushViewOrder
    rw [collectViews_eq]
    exact ((List.perm_insertionSort _ _).append_right _).trans
      (occupiedWhere_split_perm 0 buf)

/-- C2: within one view, `Device::flush` realizes the queued draw calls
sorted by descending priority when the view's `sequence` flag is unset
(for submitted priorities [3, 1, 2] the realized order is [3, 2, 1]),
and exactly in submission order when the flag is set. -/
theorem C2_drawcall_order (vo : ViewStateObject) :
    (vo.setup.sequence = true → sortBucketDrawcalls vo = vo.drawcalls) ∧
    (vo.setup.sequence = false →
      (sortBucketDrawcalls vo).Sorted dcDescLE ∧
        (sortBucketDrawcalls vo).Perm vo.drawcalls) ∧
    (sortBucketDrawcalls (exampleView false)).map DrawCall.priority = [3, 2, 1] ∧
    (sortBucketDrawcalls (exampleView true)).map DrawCall.priority = [3, 1, 2] := by
  refine ⟨fun h => ?_, fun h => ?_, by decide, by decide⟩
  · simp [sortBucketDrawcalls, h]
  · simp only [sortBucketDrawcalls, h, Bool.not_false, if_true]
    exact ⟨List.sorted_insertionSort _ _, List.perm_insertionSort _ _⟩

/-- Witness for C2 at the concrete example views: the sequence view
keeps submission order; the non-sequence view's realized queue is
sorted descending and a permutation of the submitted queue. -/
theorem C2_drawcall_order_witness :
    sortBucketDrawcalls (exampleView true) = (exampleView true).drawcalls ∧
    ((sortBucketDrawcalls (exampleView false)).Sorted dcDescLE ∧
      (sortBucketDrawcalls (exampleView false)).Perm (exampleView false).drawcalls) :=
  ⟨(C2_drawcall_order (exampleView true)).1 rfl,
   (C2_drawcall_order (exampleView false)).2.1 rfl⟩

/-! ## Device state and resource operations (device.rs lines 81–661)

The backend visitor (`OpenGLVisitor`) is external to the core; each
fallible visitor call a device operation makes is passed in as its
`Except DevErr _` outcome.  Device operations take `&mut self` and
never mutate the handle tables before an early `bail!`, so they are
modelled as `Except DevErr Device`: an `error` result leaves the caller
holding the unchanged device. -/

/-- Embeds `VertexBufferObject` (device.rs lines 19–23). -/
structure VertexBufferObject where
  id : Nat
  setup : VertexBufferSetup
deriving DecidableEq, Repr

/-- Embeds `IndexBufferObject` (device.rs lines 25–29). -/
structure IndexBufferObject where
  id : Nat
  setup : IndexBufferSetup
deriving DecidableEq, Repr

/-- Modelled from the spec (§4.3): `PipelineStateSetup` is defined
outside the sampled sources; the sampled code iterates its attribute
`layout` names (`create_pipeline`, `bind_attribute_layout`) and
forwards its render `state` to the visitor. -/
structure PipelineStateSetup where
  layout : List String
deriving DecidableEq, Repr

/-- Embeds `PipelineStateObject` (device.rs lines 31–36); the `HashMap` of
persisted uniforms becomes an association list (its iteration order is
unspecified, and nothing proved below depends on it). -/
structure PipelineStateObject where
  id : Nat
  setup : PipelineStateSetup
  uniforms : List (String × UniformVariable)
deriving DecidableEq, Repr

/-- Modelled from the spec (§3): `TextureSetup` is defined outside the
sampled sources; the sampled code only stores it and forwards its
fields to the visitor. -/
structure TextureSetup where
  params : Nat
deriving DecidableEq, Repr

/-- Modelled from the spec (§3): `RenderTextureSetup`, analogous to
`TextureSetup`. -/
structure RenderTextureSetup where
  params : Nat
deriving DecidableEq, Repr

/-- Embeds `GenericTextureSetup` (device.rs lines 44–48). -/
inductive GenericTextureSetup where
  | Normal (setup : TextureSetup)
  | Render (setup : RenderTextureSetup)
deriving DecidableEq, Repr

/-- Embeds `TextureObject` (device.rs lines 50–54). -/
structure TextureObject where
  id : Nat
  setup : GenericTextureSetup
deriving DecidableEq, Repr

/-- Modelled from the spec (§3): `RenderBufferSetup` is defined outside
the sampled sources; the sampled code forwards its format and
dimensions to the visitor and stores it. -/
structure RenderBufferSetup where
  format : Nat
  dimensions : Nat × Nat
deriving DecidableEq, Repr

/-- Embeds `RenderBufferObject` (device.rs lines 56–60). -/
structure RenderBufferObject where
  id : Nat
  setup : RenderBufferSetup
deriving DecidableEq, Repr

/-- Embeds `FrameBufferObject` (device.rs lines 62–65). -/
structure FrameBufferObject where
  id : Nat
deriving DecidableEq, Repr

/-- Embeds `Device` (device.rs lines 81–93): one handle table per resource
kind plus the active-pipeline cache. -/
structure Device where
  vertex_buffers : DataVec VertexBufferObject
  index_buffers : DataVec IndexBufferObject
  pipelines : DataVec PipelineStateObject
  views : DataVec ViewStateObject
  textures : DataVec TextureObject
  render_buffers : DataVec RenderBufferObject
  framebuffers : DataVec FrameBufferObject
  active_pipeline : Option Handle
deriving Repr, DecidableEq

/-- Embeds `Device::new` (device.rs lines 99–111). -/
def Device.new : Device :=
  ⟨DataVec.new _, DataVec.new _, DataVec.new _, DataVec.new _,
   DataVec.new _, DataVec.new _, DataVec.new _, none⟩

namespace Device

/-- Embeds `Device::create_vertex_buffer` (device.rs lines 322–339): fails
with `DuplicatedHandle` when the slot is occupied, before any visitor
call; otherwise stores the object built from the visitor's buffer id
(`vres` is the outcome of `visitor.create_buffer(...)`; the trailing
`check()` is the visitor's GL-error poll, folded into `vres`). -/
def create_vertex_buffer (d : Device) (handle : Handle)
    (setup : VertexBufferSetup) (vres : Except DevErr Nat) :
    Except DevErr Device :=
  if (d.vertex_buffers.get handle).isSome then
    .error .DuplicatedHandle
  else do
    let id ← vres
    .ok { d with vertex_buffers := d.vertex_buffers.set handle ⟨id, setup⟩ }

/-- Embeds `Device::update_vertex_buffer` (device.rs lines 341–360): checks
the handle, then the `Immutable` hint, then `data.len() + offset >
setup.len()`; `ures` is the outcome of `visitor.update_buffer(...)`. -/
def update_vertex_buffer (d : Device) (handle : Handle) (offset : Nat)
    (data : List Nat) (ures : Except DevErr Unit) : Except DevErr Unit :=
  match d.vertex_buffers.get handle with
  | some vbo =>
    if vbo.setup.hint = BufferHint.Immutable then
      .error .InvalidUpdateStaticResource
    else if data.length + offset > vbo.setup.len then
      .error .OutOfBounds
    else ures
  | none => .error .InvalidHandle

/-- Embeds `Device::create_index_buffer` (device.rs lines 370–387). -/
def create_index_buffer (d : Device) (handle : Handle)
    (setup : IndexBufferSetup) (vres : Except DevErr Nat) :
    Except DevErr Device :=
  if (d.index_buffers.get handle).isSome then
    .error .DuplicatedHandle
  else do
    let id ← vres
    .ok { d with index_buffers := d.index_buffers.set handle ⟨id, setup⟩ }

/-- Embeds `Device::update_index_buffer` (device.rs lines 389–408). -/
def update_index_buffer (d : Device) (handle : Handle) (offset : Nat)
    (data : List Nat) (ures : Except DevErr Unit) : Except DevErr Unit :=
  match d.index_buffers.get handle with
  | some ibo =>
    if ibo.setup.hint = BufferHint.Immutable then
      .error .InvalidUpdateStaticResource
    else if data.length + offset > ibo.setup.len then
      .error .OutOfBounds
    else ures
  | none => .error .InvalidHandle

/-- Embeds `Device::create_render_buffer` (device.rs lines 418–434): performs
no duplicate-handle check; stores the object as soon as the visitor
call succeeds. -/
def create_render_buffer (d : Device) (handle : Handle)
    (setup : RenderBufferSetup) (vres : Except DevErr Nat) :
    Except DevErr Device := do
  let id ← vres
  .ok { d with render_buffers := d.render_buffers.set handle ⟨id, setup⟩ }

/-- Embeds `Device::create_framebuffer` (device.rs lines 444–453): fails with
`DuplicatedHandle` when the slot is occupied. -/
def create_framebuffer (d : Device) (handle : Handle)
    (vres : Except DevErr Nat) : Except DevErr Device :=
  if (d.framebuffers.get handle).isSome then
    .error .DuplicatedHandle
  else do
    let id ← vres
    .ok { d with framebuffers := d.framebuffers.set handle ⟨id⟩ }

/-- Embeds `Device::create_render_texture` (device.rs lines 533–556): performs
no duplicate-handle check. -/
def create_render_texture (d : Device) (handle : Handle)
    (setup : RenderTextureSetup) (vres : Except DevErr Nat) :
    Except DevErr Device := do
  let id ← vres
  .ok { d with textures := d.textures.set handle ⟨id, .Render setup⟩ }

/-- Embeds `Device::create_texture` (device.rs lines 558–582): performs no
duplicate-handle check. -/
def create_texture (d : Device) (handle : Handle) (setup : TextureSetup)
    (vres : Except DevErr Nat) : Except DevErr Device := do
  let id ← vres
  .ok { d with textures := d.textures.set handle ⟨id, .Normal setup⟩ }

/-- Embeds `Device::create_view` (device.rs lines 593–601): performs no
duplicate-handle check and no visitor call; unconditionally stores a
fresh view object with an empty draw-call queue, overwriting any
occupant, and returns `Ok(())`. -/
def create_view (d : Device) (handle : Handle) (setup : ViewStateSetup) :
    Except DevErr Device :=
  .ok { d with views := d.views.set handle ⟨[], setup⟩ }

/-- Embeds `Device::delete_view` (device.rs lines 603–609). -/
def delete_view (d : Device) (handle : Handle) : Except DevErr Device :=
  match d.views.remove handle with
  | (some _, views) => .ok { d with views := views }
  | (none, _) => .error .InvalidHandle

/-- Embeds `Device::create_pipeline` (device.rs lines 614–639): no
duplicate-handle check; `vres` is the outcome of
`visitor.create_program`, and `getAttrLoc` is the visitor's
`get_attribute_location` (a name resolving to `-1` aborts with a
string error naming the attribute). -/
def create_pipeline (d : Device) (handle : Handle)
    (setup : PipelineStateSetup) (vres : Except DevErr Nat)
    (getAttrLoc : Nat → String → Int) : Except DevErr Device :=
  match vres with
  | .error e => .error e
  | .ok pid =>
    match setup.layout.find? (fun name => getAttrLoc pid name = -1) with
    | some name => .error (.Msg ("failed to locate attribute " ++ name))
    | none =>
      .ok { d with pipelines := d.pipelines.set handle ⟨pid, setup, []⟩ }

/-- Embeds `Device::update_pipeline_uniform` (device.rs lines 641–652). -/
def update_pipeline_uniform (d : Device) (handle : Handle) (name : String)
    (uvar : UniformVariable) : Except DevErr Device :=
  match d.pipelines.get handle with
  | some pso =>
    .ok { d with pipelines :=
      (d.pipelines.set handle
        { pso with uniforms :=
            (name, uvar) :: pso.uniforms.filter (fun kv => kv.1 ≠ name) }) }
  | none => .error .InvalidHandle

/-- Embeds `Device::submit` (device.rs lines 127–158): validates the view
handle and appends one `DrawCall` built from the arguments to that
view's queue; an unoccupied view slot fails with `InvalidHandle`
before any mutation. -/
def submit (d : Device) (priority : Nat) (view pipeline : Handle)
    (textures uniforms : Nat) (vb : Handle) (ib : Option Handle)
    (primitive : Nat) (from_ len : Nat) : Except DevErr Device :=
  match d.views.get view with
  | some vo =>
    .ok { d with views :=
      (d.views.set view
        { vo with drawcalls := vo.drawcalls ++
            [⟨priority, view, pipeline, uniforms, textures, vb, ib, primitive,
              from_, len⟩] }) }
  | none => .error .InvalidHandle

end Device

theorem getElem?_append_replicate_none_bind {T : Type}
    (l : List (Option T)) (k i : Nat) :
    ((l ++ List.replicate k (none : Option T))[i]?.bind id) = l[i]?.bind id := by
  by_cases hi : i < l.length
  · rw [List.getElem?_append_left hi]
  · push_neg at hi
    have h1 : l[i]? = none := by rw [List.getElem?_eq_none_iff]; exact hi
    rw [h1]
    by_cases h2 : i < l.length + k
    · have h3 : (l ++ List.replicate k (none : Option T))[i]? = some none := by
        rw [List.getElem?_append_right hi, List.getElem?_replicate]
        have : i - l.length < k := by omega
        simp [this]
      simp [h3]
    · have h3 : (l ++ List.replicate k (none : Option T))[i]? = none := by
        rw [List.getElem?_eq_none_iff]
        simp only [List.length_append, List.length_replicate]
        omega
      simp [h3]

theorem dataVec_get_set_ne {T : Type} (dv : DataVec T) (h h' : Handle) (v : T)
    (hne : h'.index ≠ h.index) : (dv.set h v).get h' = dv.get h' := by
  unfold DataVec.get DataVec.set
  simp only
  rw [List.getElem?_set_ne (by omega)]
  exact getElem?_append_replicate_none_bind dv.buf _ h'.index

/-- C6: for the handle table `DataVec` and every handle `H`: after
`remove(H)`, `get(H)` is `none`; after `set(H, v)`, `get(H) = v`;
`set` overwrites any occupant (the two hold for arbitrary prior state),
and `remove` returns the evacuated value (what `get` saw) and leaves
the slot free. -/
theorem C6_dataVec_contract {T : Type} (dv : DataVec T) (h : Handle) (v : T) :
    (dv.set h v).get h = some v ∧
    ((dv.remove h).2).get h = none ∧
    (dv.remove h).1 = dv.get h := by
  exact ⟨dataVec_get_set dv h v, dataVec_get_remove dv h, dataVec_remove_returns dv h⟩

/-! ## Frame scheduler timestep (engine.rs lines 169–257)

`std::time::Duration` is modelled after the Rust standard library:
seconds plus a sub-second nanosecond component (kept below 10^9 by the
operations), with `Add`, `Div<u32>` and lexicographic `Ord` following
the std implementations. -/

/-- Embeds `std::time::Duration`: whole seconds and sub-second nanoseconds. -/
structure Duration where
  secs : Nat
  nanos : Nat
deriving DecidableEq, Repr

namespace Duration

/-- Embeds `Duration::from_millis`. -/
def from_millis (ms : Nat) : Duration :=
  ⟨ms / 1000, (ms % 1000) * 1000000⟩

/-- Embeds `Duration::add`: component-wise with carry from the nanosecond
field. -/
def add (a b : Duration) : Duration :=
  let n := a.nanos + b.nanos
  if n ≥ 1000000000 then ⟨a.secs + b.secs + 1, n - 1000000000⟩
  else ⟨a.secs + b.secs, n⟩

/-- Embeds `Duration::div` by a `u32`: truncated seconds, with the remainder
carried into the nanosecond quotient (the std formula). -/
def div (a : Duration) (rhs : Nat) : Duration :=
  let secs := a.secs / rhs
  let carry := a.secs - secs * rhs
  let extra_nanos := carry * 1000000000 / rhs
  ⟨secs, a.nanos / rhs + extra_nanos⟩

/-- The derived lexicographic order on (secs, nanos), as in std's
`Ord for Duration`. -/
def lexLE (a b : Duration) : Prop :=
  a.secs < b.secs ∨ (a.secs = b.secs ∧ a.nanos ≤ b.nanos)

instance : DecidableRel lexLE := fun a b => by
  unfold lexLE; infer_instance

/-- Embeds `std::cmp::min` on durations: the first argument when it is less
than or equal. -/
def min (a b : Duration) : Duration :=
  if lexLE a b then a else b

end Duration

/-- The timestep-relevant state of `Engine` (engine.rs lines 15–30):
the configured minimum fps and smoothing window, the
most-recent-first sample history, and the stored timestep.  (`max_fps`
only drives the real-time wait loop that determines the raw elapsed
time, which is an input here.) -/
structure EngineState where
  min_fps : Nat
  smoothing_step : Nat
  previous_timesteps : List Duration
  timestep : Duration
deriving DecidableEq, Repr

/-- The min-fps clamp of `Engine::advance` (engine.rs lines 186–189):
with `min_fps > 0` the raw elapsed time is clamped to
`Duration::from_millis(1000 / min_fps)` (integer division). -/
def clampElapsed (min_fps : Nat) (elapsed : Duration) : Duration :=
  if min_fps > 0 then
    Duration.min elapsed (Duration.from_millis (1000 / min_fps))
  else elapsed

/-- The timestep-smoothing step of `Engine::advance` (engine.rs lines
191–207), applied to the already-clamped elapsed time: the sample is
pushed to the front of the history; if the history now exceeds the
window it is truncated to the window (`drain(smoothing_step..)`) and
the timestep becomes the sum of the kept samples divided by their
count; otherwise the timestep is the front of the history (the sample
just pushed).  With smoothing disabled the timestep is the clamped
elapsed time and the history is untouched. -/
def smoothTimestep (s : EngineState) (elapsed : Duration) : EngineState :=
  if s.smoothing_step > 0 then
    let prev := elapsed :: s.previous_timesteps
    if prev.length > s.smoothing_step then
      let kept := prev.take s.smoothing_step
      let total := kept.foldl Duration.add ⟨0, 0⟩
      { s with previous_timesteps := kept,
               timestep := total.div kept.length }
    else
      { s with previous_timesteps := prev, timestep := elapsed }
  else
    { s with timestep := elapsed }

/-- Embeds `Engine::advance` (engine.rs lines 169–210) without the real-time
max-fps wait: the raw elapsed time (an input) is clamped by the
min-fps ceiling, then fed to timestep smoothing. -/
def Engine.advance (s : EngineState) (elapsed : Duration) : EngineState :=
  smoothTimestep s (clampElapsed s.min_fps elapsed)

/-- Embeds `Engine::get_fps` (engine.rs lines 242–248).  The source computes
`(1000000000.0 / self.timestep.subsec_nanos() as f64) as u32` when the
sub-second component is non-zero; the `f64` division is modelled as
exact integer division — for `1 ≤ nanos < 10^9` the real quotient lies
in `(1, 10^9]`, so both the float-then-truncate result and the integer
quotient are at least 1 and the zero/non-zero classification below is
unaffected. -/
def Engine.get_fps (timestep : Duration) : Nat :=
  if timestep.nanos = 0 then 0
  else 1000000000 / timestep.nanos

/-- Feed a sequence of raw elapsed samples (in milliseconds) through
`Engine::advance`. -/
def Engine.feedMillis (s : EngineState) (ms : List Nat) : EngineState :=
  ms.foldl (fun st m => Engine.advance st (Duration.from_millis m)) s

/-- An engine with smoothing window 4 and no fps bounds. -/
def c5Start : EngineState := ⟨0, 4, [], ⟨0, 0⟩⟩

/-! ## C3: duplicate-handle checking across the create operations -/

/-- A device whose slot 0 is occupied in every handle table. -/
def occupiedDevice : Device :=
  { vertex_buffers := (DataVec.new _).set ⟨0, 0⟩ ⟨1, ⟨.Dynamic, 4⟩⟩
    index_buffers := (DataVec.new _).set ⟨0, 0⟩ ⟨2, ⟨.Dynamic, 4⟩⟩
    pipelines := (DataVec.new _).set ⟨0, 0⟩ ⟨3, ⟨[]⟩, []⟩
    views := (DataVec.new _).set ⟨0, 0⟩ ⟨[], ⟨none, 0, false⟩⟩
    textures := (DataVec.new _).set ⟨0, 0⟩ ⟨4, .Normal ⟨0⟩⟩
    render_buffers := (DataVec.new _).set ⟨0, 0⟩ ⟨5, ⟨0, (1, 1)⟩⟩
    framebuffers := (DataVec.new _).set ⟨0, 0⟩ ⟨6⟩
    active_pipeline := none }

/-- C3 counterexample: view slot 0 of `occupiedDevice` is occupied (by
a view with order 0), yet `create_view` at that handle does not fail
with `DuplicatedHandle`: it succeeds and replaces the stored view with
one built from the new setup. -/
theorem C3_counterexample :
    (occupiedDevice.views.get ⟨0, 0⟩).isSome = true ∧
    occupiedDevice.views.get ⟨0, 0⟩ = some ⟨[], ⟨none, 0, false⟩⟩ ∧
    occupiedDevice.create_view ⟨0, 0⟩ ⟨none, 7, true⟩ ≠
      .error DevErr.DuplicatedHandle ∧
    occupiedDevice.create_view ⟨0, 0⟩ ⟨none, 7, true⟩ =
      .ok { occupiedDevice with
              views := occupiedDevice.views.set ⟨0, 0⟩ ⟨[], ⟨none, 7, true⟩⟩ } ∧
    ({ occupiedDevice with
        views := occupiedDevice.views.set ⟨0, 0⟩
          ⟨[], ⟨none, 7, true⟩⟩ } : Device).views.get ⟨0, 0⟩ =
      some ⟨[], ⟨none, 7, true⟩⟩ := by
  refine ⟨rfl, rfl, ?_, rfl, rfl⟩
  decide

/-- C3 amended: only `create_vertex_buffer`, `create_index_buffer` and
`create_framebuffer` fail with `DuplicatedHandle` on an occupied slot
(checked before any visitor call, so the stored object is untouched);
`create_view`, `create_texture`, `create_render_texture`,
`create_render_buffer` and `create_pipeline` perform no duplicate
check: when their visitor calls succeed they overwrite any occupant,
and `create_pipeline` never reports `DuplicatedHandle`. -/
theorem C3_create_duplicate_checks :
    (∀ (d : Device) (h : Handle) (setup : VertexBufferSetup) (vres),
        (d.vertex_buffers.get h).isSome = true →
        d.create_vertex_buffer h setup vres = .error .DuplicatedHandle) ∧
    (∀ (d : Device) (h : Handle) (setup : IndexBufferSetup) (vres),
        (d.index_buffers.get h).isSome = true →
        d.create_index_buffer h setup vres = .error .DuplicatedHandle) ∧
    (∀ (d : Device) (h : Handle) (vres),
        (d.framebuffers.get h).isSome = true →
        d.create_framebuffer h vres = .error .DuplicatedHandle) ∧
    (∀ (d : Device) (h : Handle) (setup : ViewStateSetup),
        d.create_view h setup = .ok { d with views := d.views.set h ⟨[], setup⟩ }) ∧
    (∀ (d : Device) (h : Handle) (setup : TextureSetup) (id : Nat),
        d.create_texture h setup (.ok id) =
          .ok { d with textures := d.textures.set h ⟨id, .Normal setup⟩ }) ∧
    (∀ (d : Device) (h : Handle) (setup : RenderTextureSetup) (id : Nat),
        d.create_render_texture h setup (.ok id) =
          .ok { d with textures := d.textures.set h ⟨id, .Render setup⟩ }) ∧
    (∀ (d : Device) (h : Handle) (setup : RenderBufferSetup) (id : Nat),
        d.create_render_buffer h setup (.ok id) =
          .ok { d with render_buffers := d.render_buffers.set h ⟨id, setup⟩ }) ∧
    (∀ (d : Device) (h : Handle) (setup : PipelineStateSetup) (pid : Nat) (g),
        d.create_pipeline h setup (.ok pid) g ≠ .error .DuplicatedHandle) := by
  refine ⟨?_, ?_, ?_, fun _ _ _ => rfl, fun _ _ _ _ => rfl, fun _ _ _ _ => rfl,
    fun _ _ _ _ => rfl, ?_⟩
  · intro d h setup vres hocc
    simp [Device.create_vertex_buffer, hocc]
  · intro d h setup vres hocc
    simp [Device.create_index_buffer, hocc]
  · intro d h vres hocc
    simp [Device.create_framebuffer, hocc]
  · intro d h setup pid g hcontra
    rcases hfind : setup.layout.find? (fun name => decide (g pid name = -1)) with
      _ | name <;> simp [Device.create_pipeline, hfind] at hcontra

/-- Witness for the C3 amended theorem at `occupiedDevice`, whose slot
0 is occupied in every table. -/
theorem C3_create_duplicate_checks_witness :
    occupiedDevice.create_vertex_buffer ⟨0, 0⟩ ⟨.Dynamic, 8⟩ (.ok 9) =
      .error .DuplicatedHandle ∧
    occupiedDevice.create_index_buffer ⟨0, 0⟩ ⟨.Dynamic, 8⟩ (.ok 9) =
      .error .DuplicatedHandle ∧
    occupiedDevice.create_framebuffer ⟨0, 0⟩ (.ok 9) =
      .error .DuplicatedHandle ∧
    occupiedDevice.create_view ⟨0, 0⟩ ⟨none, 7, true⟩ =
      .ok { occupiedDevice with
              views := occupiedDevice.views.set ⟨0, 0⟩ ⟨[], ⟨none, 7, true⟩⟩ } ∧
    occupiedDevice.create_pipeline ⟨0, 0⟩ ⟨[]⟩ (.ok 9) (fun _ _ => 0) ≠
      .error .DuplicatedHandle :=
  ⟨C3_create_duplicate_checks.1 occupiedDevice ⟨0, 0⟩ ⟨.Dynamic, 8⟩ (.ok 9) (by decide),
   C3_create_duplicate_checks.2.1 occupiedDevice ⟨0, 0⟩ ⟨.Dynamic, 8⟩ (.ok 9) (by decide),
   C3_create_duplicate_checks.2.2.1 occupiedDevice ⟨0, 0⟩ (.ok 9) (by decide),
   C3_create_duplicate_checks.2.2.2.1 occupiedDevice ⟨0, 0⟩ ⟨none, 7, true⟩,
   C3_create_duplicate_checks.2.2.2.2.2.2.2 occupiedDevice ⟨0, 0⟩ ⟨[]⟩ 9 (fun _ _ => 0)⟩

/-! ## C4: the order of the immutable and out-of-bounds checks -/

/-- A device holding, at vertex-buffer slot 0, an immutable buffer of
capacity 0 and, at slot 1, a dynamic buffer of capacity 0 (same for
index buffers). -/
def c4Device : Device :=
  { Device.new with
      vertex_buffers :=
        ((DataVec.new _).set ⟨0, 0⟩ ⟨1, ⟨.Immutable, 0⟩⟩).set ⟨1, 0⟩
          ⟨2, ⟨.Dynamic, 0⟩⟩
      index_buffers :=
        ((DataVec.new _).set ⟨0, 0⟩ ⟨3, ⟨.Immutable, 0⟩⟩).set ⟨1, 0⟩
          ⟨4, ⟨.Dynamic, 0⟩⟩ }

/-- C4 counterexample: updating the immutable capacity-0 vertex buffer
with one byte at offset 0 violates both conditions (the write is out of
bounds and the buffer is immutable), yet the error returned is
`InvalidUpdateStaticResource`, not `OutOfBounds`: the immutable check
runs first, contrary to the claimed priority.  (Likewise for the index
buffer.) -/
theorem C4_counterexample :
    ([7].length + 0 > 0) ∧
    c4Device.update_vertex_buffer ⟨0, 0⟩ 0 [7] (.ok ()) =
      .error .InvalidUpdateStaticResource ∧
    c4Device.update_vertex_buffer ⟨0, 0⟩ 0 [7] (.ok ()) ≠
      .error .OutOfBounds ∧
    c4Device.update_index_buffer ⟨0, 0⟩ 0 [7] (.ok ()) =
      .error .InvalidUpdateStaticResource ∧
    c4Device.update_index_buffer ⟨0, 0⟩ 0 [7] (.ok ()) ≠
      .error .OutOfBounds := by
  decide

/-- C4 amended: on an occupied handle, `update_vertex_buffer` and
`update_index_buffer` check the `Immutable` hint first — an immutable
buffer always fails with `InvalidUpdateStaticResource`, even when the
write is also out of bounds — and only a non-immutable buffer with
`offset + len(data)` exceeding the allocated size fails with
`OutOfBounds`. -/
theorem C4_update_check_order :
    (∀ (d : Device) (h : Handle) (offset : Nat) (data : List Nat) (ures) (vbo),
        d.vertex_buffers.get h = some vbo →
        (vbo.setup.hint = .Immutable →
          d.update_vertex_buffer h offset data ures =
            .error .InvalidUpdateStaticResource) ∧
        (vbo.setup.hint ≠ .Immutable → data.length + offset > vbo.setup.len →
          d.update_vertex_buffer h offset data ures = .error .OutOfBounds)) ∧
    (∀ (d : Device) (h : Handle) (offset : Nat) (data : List Nat) (ures) (ibo),
        d.index_buffers.get h = some ibo →
        (ibo.setup.hint = .Immutable →
          d.update_index_buffer h offset data ures =
            .error .InvalidUpdateStaticResource) ∧
        (ibo.setup.hint ≠ .Immutable → data.length + offset > ibo.setup.len →
          d.update_index_buffer h offset data ures = .error .OutOfBounds)) := by
  constructor
  · intro d h offset data ures vbo hget
    constructor
    · intro him
      simp [Device.update_vertex_buffer, hget, him]
    · intro him hb
      simp [Device.update_vertex_buffer, hget, him, hb]
  · intro d h offset data ures ibo hget
    constructor
    · intro him
      simp [Device.update_index_buffer, hget, him]
    · intro him hb
      simp [Device.update_index_buffer, hget, him, hb]

/-- Witness for the C4 amended theorem on `c4Device`: the immutable
buffers at slot 0 fail with `InvalidUpdateStaticResource`, the dynamic
capacity-0 buffers at slot 1 fail with `OutOfBounds`. -/
theorem C4_update_check_order_witness :
    c4Device.update_vertex_buffer ⟨0, 0⟩ 0 [7] (.ok ()) =
      .error .InvalidUpdateStaticResource ∧
    c4Device.update_vertex_buffer ⟨1, 0⟩ 0 [7] (.ok ()) =
      .error .OutOfBounds ∧
    c4Device.update_index_buffer ⟨0, 0⟩ 0 [7] (.ok ()) =
      .error .InvalidUpdateStaticResource ∧
    c4Device.update_index_buffer ⟨1, 0⟩ 0 [7] (.ok ()) =
      .error .OutOfBounds :=
  ⟨(C4_update_check_order.1 c4Device ⟨0, 0⟩ 0 [7] (.ok ()) ⟨1, ⟨.Immutable, 0⟩⟩
      (by decide)).1 rfl,
   (C4_update_check_order.1 c4Device ⟨1, 0⟩ 0 [7] (.ok ()) ⟨2, ⟨.Dynamic, 0⟩⟩
      (by decide)).2 (by decide) (by decide),
   (C4_update_check_order.2 c4Device ⟨0, 0⟩ 0 [7] (.ok ()) ⟨3, ⟨.Immutable, 0⟩⟩
      (by decide)).1 rfl,
   (C4_update_check_order.2 c4Device ⟨1, 0⟩ 0 [7] (.ok ()) ⟨4, ⟨.Dynamic, 0⟩⟩
      (by decide)).2 (by decide) (by decide)⟩

/-! ## Flush-time uniform/texture binding (device.rs lines 217–318)

The visitor's `get_uniform_location` is passed in as a total map
`getLoc : program id → name → location` (its success outcomes; visitor
calls that only push GL state — `bind_program`, the render-state
setters, `bind_uniform`, `bind_texture`, `bind_buffer`,
`bind_attribute_layout`, `clear`, `set_viewport` — are modelled as
succeeding, since the claims under study concern the device's own
location checks). -/

/-- The error `flush` raises for a per-draw uniform name resolving to
location `-1`: `bail!(format!("failed to locate uniform {}.", name))`. -/
def uniformErr (name : String) : DevErr :=
  .Msg ("failed to locate uniform " ++ name ++ ".")

/-- The error `flush` raises for a per-draw texture name resolving to
location `-1`: `bail!(format!("failed to locate texture {}.", name))`. -/
def textureErr (name : String) : DevErr :=
  .Msg ("failed to locate texture " ++ name ++ ".")

/-- The persisted-uniform loop of `Device::bind_pipeline` (device.rs
lines 309–314): for each stored (name, value) pair, look the name up;
when the location is not `-1`, bind it (the bound pairs are collected
as the result); a location of `-1` falls through silently — the loop
has no error path for it. -/
def bindPersistedUniforms (getLoc : Nat → String → Int) (pid : Nat) :
    List (String × UniformVariable) → Except DevErr (List (Int × UniformVariable))
  | [] => .ok []
  | (name, uvar) :: rest =>
    let location := getLoc pid name
    if location ≠ -1 then
      match bindPersistedUniforms getLoc pid rest with
      | .error e => .error e
      | .ok tail => .ok ((location, uvar) :: tail)
    else
      bindPersistedUniforms getLoc pid rest

/-- The per-draw uniform loop of `Device::flush` (device.rs lines
233–239): a name resolving to location `-1` aborts with
`uniformErr name`; otherwise the pair is bound. -/
def bindDrawUniforms (getLoc : Nat → String → Int) (pid : Nat) :
    List (String × UniformVariable) → Except DevErr (List (Int × UniformVariable))
  | [] => .ok []
  | (name, uvar) :: rest =>
    let location := getLoc pid name
    if location = -1 then .error (uniformErr name)
    else
      match bindDrawUniforms getLoc pid rest with
      | .error e => .error e
      | .ok tail => .ok ((location, uvar) :: tail)

/-- The per-draw texture loop of `Device::flush` (device.rs lines
241–254): an invalid texture handle aborts with a string error naming
the texture (the Rust message also Debug-formats the handle); a name
resolving to location `-1` aborts with `textureErr name`; otherwise
the texture is bound to the running slot index. -/
def bindDrawTextures (d : Device) (getLoc : Nat → String → Int) (pid : Nat) :
    Nat → List (String × Handle) → Except DevErr Unit
  | _, [] => .ok ()
  | i, (name, tex) :: rest =>
    match d.textures.get tex with
    | some _to =>
      let location := getLoc pid name
      if location = -1 then .error (textureErr name)
      else bindDrawTextures d getLoc pid (i + 1) rest
    | none => .error (.Msg ("use invalid texture handle at " ++ name))

/-- Embeds `Device::bind_pipeline` (device.rs lines 285–318): an unknown
pipeline handle fails with `InvalidHandle`; if the handle is already
the active pipeline the full state rebinding is skipped; otherwise the
program, render state and persisted uniforms are bound and the
active-pipeline cache updated. -/
def bind_pipeline (d : Device) (getLoc : Nat → String → Int)
    (pipeline : Handle) : Except DevErr (PipelineStateObject × Device) :=
  match d.pipelines.get pipeline with
  | none => .error .InvalidHandle
  | some pso =>
    if d.active_pipeline = some pipeline then .ok (pso, d)
    else
      match bindPersistedUniforms getLoc pso.id pso.uniforms with
      | .error e => .error e
      | .ok _ => .ok (pso, { d with active_pipeline := some pipeline })

/-- Modelled from the spec (§4.2): the frame command buffer
(`TaskBuffer`, defined in `frame.rs` outside the sampled sources)
resolves offset pointers recorded in a `DrawCall` back to typed slices
and strings from the same buffer; resolution is modelled as total
maps from the opaque offsets. -/
structure TaskBuffer where
  uniformSlices : Nat → List (Nat × UniformVariable)
  textureSlices : Nat → List (Nat × Handle)
  strs : Nat → String

/-- The per-draw-call body of `Device::flush` (device.rs lines
217–279): resolve the draw call's uniform and texture name/value pairs
from the frame buffer, bind the pipeline (with its persisted
uniforms), bind the per-draw uniforms and textures (fail-fast on a
`-1` location), validate the vertex- and index-buffer handles, and
issue the draw. -/
def processDrawCall (d : Device) (buf : TaskBuffer)
    (getLoc : Nat → String → Int) (dc : DrawCall) : Except DevErr Device :=
  let uniforms := (buf.uniformSlices dc.uniforms).map
    (fun nv => (buf.strs nv.1, nv.2))
  let textures := (buf.textureSlices dc.textures).map
    (fun nv => (buf.strs nv.1, nv.2))
  match bind_pipeline d getLoc dc.pipeline with
  | .error e => .error e
  | .ok (pso, d') =>
    match bindDrawUniforms getLoc pso.id uniforms with
    | .error e => .error e
    | .ok _ =>
      match bindDrawTextures d' getLoc pso.id 0 textures with
      | .error e => .error e
      | .ok _ =>
        match d'.vertex_buffers.get dc.vb with
        | none => .error .InvalidHandle
        | some _vbo =>
          match dc.ib with
          | some v =>
            match d'.index_buffers.get v with
            | some _ibo => .ok d'
            | none => .error .InvalidHandle
          | none => .ok d'

/-- The draw-call loop of one view in `Device::flush`: the first error
aborts the whole flush (fail-fast); remaining draw calls are never
realized. -/
def flushDrawcalls (d : Device) (buf : TaskBuffer)
    (getLoc : Nat → String → Int) : List DrawCall → Except DevErr Device
  | [] => .ok d
  | dc :: rest =>
    match processDrawCall d buf getLoc dc with
    | .error e => .error e
    | .ok d' => flushDrawcalls d' buf getLoc rest

/-- Processing of one view in `Device::flush` (device.rs lines
185–279): bind the view's framebuffer (an unknown framebuffer handle
fails with `InvalidHandle`; the clear and viewport visitor calls are
modelled as succeeding), then realize the view's queued draw calls in
`sortBucketDrawcalls` order.  The in-place sort of the stored queue is
not written back: it is observable only by a second flush before the
per-frame queue clear, which the frame protocol never performs. -/
def flushViewAt (d : Device) (buf : TaskBuffer)
    (getLoc : Nat → String → Int) (i : Nat) : Except DevErr Device :=
  match d.views.buf[i]?.bind id with
  | none => .ok d
  | some vo =>
    let proceed :=
      match vo.setup.framebuffer with
      | some fbo => (d.framebuffers.get fbo).isSome
      | none => true
    if proceed then flushDrawcalls d buf getLoc (sortBucketDrawcalls vo)
    else .error .InvalidHandle

/-- Embeds `Device::flush` (device.rs lines 160–283): process the views in
`flushViewOrder`, aborting at the first error. -/
def Device.flush (d : Device) (buf : TaskBuffer)
    (getLoc : Nat → String → Int) : Except DevErr Device :=
  (flushViewOrder d.views.buf).foldlM (fun acc i => flushViewAt acc buf getLoc i) d

/-! ## C9: -1 locations — fail-fast per draw, silent for persisted -/

theorem bindPersistedUniforms_eq (getLoc : Nat → String → Int) (pid : Nat)
    (us : List (String × UniformVariable)) :
    bindPersistedUniforms getLoc pid us =
      .ok ((us.filter (fun nv => getLoc pid nv.1 ≠ -1)).map
        (fun nv => (getLoc pid nv.1, nv.2))) := by
  induction us with
  | nil => rfl
  | cons nv rest ih =>
    obtain ⟨name, uvar⟩ := nv
    by_cases hloc : getLoc pid name = -1
    · simp [bindPersistedUniforms, hloc, ih]
    · simp [bindPersistedUniforms, hloc, ih]

/-- A per-draw uniform pipeline, a frame buffer and a draw call for the
C9 witness: program 7 resolves the name "missing" to location `-1` and
every other name to 1; the pipeline persists values under both
"missing" and "ok". -/
def c9GetLoc : Nat → String → Int :=
  fun _ name => if name = "missing" then -1 else 1

def c9Pipeline : PipelineStateObject :=
  ⟨7, ⟨[]⟩, [("missing", .Other 0), ("ok", .Other 1)]⟩

def c9Device : Device :=
  { Device.new with
      pipelines := (DataVec.new _).set ⟨0, 0⟩ c9Pipeline
      textures := (DataVec.new _).set ⟨0, 0⟩ ⟨4, .Normal ⟨0⟩⟩ }

/-- A frame buffer resolving the draw call's single uniform pointer to
the name "missing". -/
def c9Buf : TaskBuffer :=
  ⟨fun _ => [(0, .Other 0)], fun _ => [], fun _ => "missing"⟩

/-- A draw call against pipeline slot 0 whose single per-draw uniform
resolves to the name "missing". -/
def c9DrawCall : DrawCall :=
  ⟨0, ⟨0, 0⟩, ⟨0, 0⟩, 0, 0, ⟨0, 0⟩, none, 0, 0, 0⟩

/-- C9: during flush, a per-draw uniform or texture name that resolves
to backend location `-1` aborts the flush with an error carrying the
offending name (the first such name in loop order), and the abort
propagates through the draw-call loop; a pipeline's persisted uniforms
are immune — binding them skips every name resolving to `-1` and has
no error path, so `bind_pipeline` on an occupied handle succeeds for
every location assignment. -/
theorem C9_location_check_asymmetry :
    (∀ (getLoc : Nat → String → Int) (pid : Nat)
       (us : List (String × UniformVariable)),
       bindPersistedUniforms getLoc pid us =
         .ok ((us.filter (fun nv => getLoc pid nv.1 ≠ -1)).map
           (fun nv => (getLoc pid nv.1, nv.2)))) ∧
    (∀ (d : Device) (getLoc : Nat → String → Int) (pipeline : Handle) pso,
       d.pipelines.get pipeline = some pso →
       bind_pipeline d getLoc pipeline =
         .ok (pso, if d.active_pipeline = some pipeline then d
                   else { d with active_pipeline := some pipeline })) ∧
    (∀ (getLoc : Nat → String → Int) (pid : Nat)
       (pre : List (String × UniformVariable)) name uvar post,
       (∀ nv ∈ pre, getLoc pid nv.1 ≠ -1) → getLoc pid name = -1 →
       bindDrawUniforms getLoc pid (pre ++ (name, uvar) :: post) =
         .error (uniformErr name)) ∧
    (∀ (d : Device) (getLoc : Nat → String → Int) (pid i : Nat)
       (pre : List (String × Handle)) name tex post,
       (∀ nv ∈ pre, (d.textures.get nv.2).isSome ∧ getLoc pid nv.1 ≠ -1) →
       (d.textures.get tex).isSome → getLoc pid name = -1 →
       bindDrawTextures d getLoc pid i (pre ++ (name, tex) :: post) =
         .error (textureErr name)) ∧
    (∀ (d : Device) (buf : TaskBuffer) (getLoc : Nat → String → Int) dc pso d' e,
       bind_pipeline d getLoc dc.pipeline = .ok (pso, d') →
       bindDrawUniforms getLoc pso.id
           ((buf.uniformSlices dc.uniforms).map
             (fun nv => (buf.strs nv.1, nv.2))) = .error e →
       processDrawCall d buf getLoc dc = .error e) ∧
    (∀ (d : Device) (buf : TaskBuffer) (getLoc : Nat → String → Int) dc rest e,
       processDrawCall d buf getLoc dc = .error e →
       flushDrawcalls d buf getLoc (dc :: rest) = .error e) := by
  refine ⟨bindPersistedUniforms_eq, ?_, ?_, ?_, ?_, ?_⟩
  · intro d getLoc pipeline pso hget
    unfold bind_pipeline
    rw [hget]
    by_cases hact : d.active_pipeline = some pipeline
    · simp [hact]
    · simp [hact, bindPersistedUniforms_eq]
  · intro getLoc pid pre name uvar post hpre hname
    induction pre with
    | nil => simp [bindDrawUniforms, hname]
    | cons nv rest ih =>
      obtain ⟨n, v⟩ := nv
      have h1 : getLoc pid n ≠ -1 := by
        simpa using hpre (n, v) (List.mem_cons_self _ _)
      have h2 : ∀ mv ∈ rest, getLoc pid mv.1 ≠ -1 :=
        fun mv hmv => hpre mv (List.mem_cons_of_mem _ hmv)
      simp [bindDrawUniforms, h1, ih h2]
  · intro d getLoc pid i pre name tex post hpre htex hname
    induction pre generalizing i with
    | nil =>
      obtain ⟨tobj, hto⟩ := Option.isSome_iff_exists.mp htex
      simp [bindDrawTextures, hto, hname, textureErr]
    | cons nv rest ih =>
      obtain ⟨n, t⟩ := nv
      have h1 := hpre (n, t) (List.mem_cons_self _ _)
      have h2 : ∀ mv ∈ rest, (d.textures.get mv.2).isSome ∧ getLoc pid mv.1 ≠ -1 :=
        fun mv hmv => hpre mv (List.mem_cons_of_mem _ hmv)
      obtain ⟨tobj, hto⟩ := Option.isSome_iff_exists.mp h1.1
      have h1' : getLoc pid n ≠ -1 := by simpa using h1.2
      simp only [List.cons_append, bindDrawTextures, hto]
      rw [if_neg h1']
      exact ih (i + 1) h2
  · intro d buf getLoc dc pso d' e hbp hbu
    simp only [processDrawCall]
    rw [hbp]
    simp [hbu]
  · intro d buf getLoc dc rest e hp
    unfold flushDrawcalls
    rw [hp]

/-- Witness for C9 at the concrete device `c9Device`: binding pipeline
slot 0 succeeds although its persisted uniform "missing" resolves to
`-1` (the pair is skipped, "ok" is bound at location 1), while the
draw call whose per-draw uniform resolves to "missing" aborts the
draw-call loop with the error naming it. -/
theorem C9_location_check_asymmetry_witness :
    bindPersistedUniforms c9GetLoc 7 c9Pipeline.uniforms =
      .ok [(1, .Other 1)] ∧
    bind_pipeline c9Device c9GetLoc ⟨0, 0⟩ =
      .ok (c9Pipeline,
        if c9Device.active_pipeline = some ⟨0, 0⟩ then c9Device
        else { c9Device with active_pipeline := some ⟨0, 0⟩ }) ∧
    bindDrawUniforms c9GetLoc 7 [("ok", .Other 1), ("missing", .Other 0)] =
      .error (uniformErr "missing") ∧
    bindDrawTextures c9Device c9GetLoc 7 0
        [("ok", ⟨0, 0⟩), ("missing", ⟨0, 0⟩)] =
      .error (textureErr "missing") ∧
    flushDrawcalls c9Device c9Buf c9GetLoc [c9DrawCall] =
      .error (uniformErr "missing") :=
  ⟨C9_location_check_asymmetry.1 c9GetLoc 7 c9Pipeline.uniforms,
   C9_location_check_asymmetry.2.1 c9Device c9GetLoc ⟨0, 0⟩ c9Pipeline (by decide),
   C9_location_check_asymmetry.2.2.1 c9GetLoc 7 [("ok", .Other 1)] "missing"
     (.Other 0) [] (by decide) (by decide),
   C9_location_check_asymmetry.2.2.2.1 c9Device c9GetLoc 7 0 [("ok", ⟨0, 0⟩)]
     "missing" ⟨0, 0⟩ [] (by decide) (by decide) (by decide),
   C9_location_check_asymmetry.2.2.2.2.2 c9Device c9Buf c9GetLoc c9DrawCall []
     (uniformErr "missing") (by decide)⟩

/-! ## C5 / C8: timestep smoothing and the min-fps clamp -/

theorem duration_min_lexLE (a b : Duration) : (Duration.min a b).lexLE b := by
  unfold Duration.min
  split
  · assumption
  · exact Or.inr ⟨rfl, Nat.le_refl _⟩

/-- C5 counterexample: with smoothing window 4 and raw samples 10 ms
then 20 ms, `Engine::advance` stores 20 ms (the most recent sample) as
the timestep after the second frame, not the claimed mean of 15 ms:
while the history is no longer than the window the code assigns
`*previous_timesteps.front().unwrap()` instead of an average. -/
theorem C5_counterexample :
    (Engine.feedMillis c5Start [10, 20]).timestep = Duration.from_millis 20 ∧
    Duration.from_millis 20 ≠ Duration.from_millis 15 := by
  refine ⟨?_, by decide⟩
  decide

/-- C5 amended: with smoothing window `w > 0`, after `Engine::advance`
the stored timestep is the clamped elapsed sample itself while the
history (sample included) is no longer than `w`, and the integer mean
(`Duration` division) of the last `w` clamped samples once more than
`w` samples have been recorded; with `w = 4` and samples
[10, 20, 30, 40, 50] ms the timestep after the 5th frame is 35 ms, but
after the 2nd frame it is 20 ms (the latest sample), not a mean.  With
smoothing disabled the timestep is the clamped raw elapsed time. -/
theorem C5_timestep_smoothing :
    (∀ (s : EngineState) (e : Duration), s.smoothing_step = 0 →
       (Engine.advance s e).timestep = clampElapsed s.min_fps e) ∧
    (∀ (s : EngineState) (e : Duration), 0 < s.smoothing_step →
       s.previous_timesteps.length + 1 ≤ s.smoothing_step →
       (Engine.advance s e).timestep = clampElapsed s.min_fps e) ∧
    (∀ (s : EngineState) (e : Duration), 0 < s.smoothing_step →
       s.previous_timesteps.length + 1 > s.smoothing_step →
       (Engine.advance s e).timestep =
         (((clampElapsed s.min_fps e :: s.previous_timesteps).take
             s.smoothing_step).foldl Duration.add ⟨0, 0⟩).div
           s.smoothing_step) ∧
    (Engine.feedMillis c5Start [10, 20, 30, 40, 50]).timestep =
      Duration.from_millis 35 ∧
    (Engine.feedMillis c5Start [10, 20]).timestep = Duration.from_millis 20 := by
  refine ⟨?_, ?_, ?_, by decide, by decide⟩
  · intro s e h
    simp [Engine.advance, smoothTimestep, h]
  · intro s e h1 h2
    simp only [Engine.advance, smoothTimestep]
    rw [if_pos h1]
    simp only [List.length_cons]
    rw [if_neg (by omega)]
  · intro s e h1 h3
    simp only [Engine.advance, smoothTimestep]
    rw [if_pos h1]
    simp only [List.length_cons]
    rw [if_pos (by omega)]
    simp only [List.length_take, List.length_cons]
    congr 1
    omega

/-- Witness for the C5 amended theorem: smoothing disabled (window 0),
window 4 with a first sample, and window 1 with a full history. -/
theorem C5_timestep_smoothing_witness :
    (Engine.advance ⟨0, 0, [], ⟨0, 0⟩⟩ (Duration.from_millis 10)).timestep =
      clampElapsed 0 (Duration.from_millis 10) ∧
    (Engine.advance c5Start (Duration.from_millis 10)).timestep =
      clampElapsed 0 (Duration.from_millis 10) ∧
    (Engine.advance ⟨0, 1, [Duration.from_millis 10], ⟨0, 0⟩⟩
        (Duration.from_millis 20)).timestep =
      (((clampElapsed 0 (Duration.from_millis 20) ::
          [Duration.from_millis 10]).take 1).foldl Duration.add ⟨0, 0⟩).div 1 :=
  ⟨C5_timestep_smoothing.1 ⟨0, 0, [], ⟨0, 0⟩⟩ (Duration.from_millis 10) rfl,
   C5_timestep_smoothing.2.1 c5Start (Duration.from_millis 10)
     (by decide) (by decide),
   C5_timestep_smoothing.2.2.1 ⟨0, 1, [Duration.from_millis 10], ⟨0, 0⟩⟩
     (Duration.from_millis 20) (by decide) (by decide)⟩

/-- C8: with a configured minimum fps `m > 0`, `Engine::advance` clamps
the raw elapsed time to at most `Duration::from_millis(1000 / m)`
(integer arithmetic) before the smoothing step; with `min_fps = 10` a
raw elapsed time of 250 ms is clamped to exactly 100 ms. -/
theorem C8_min_fps_clamp :
    (∀ (m : Nat) (e : Duration), 0 < m →
       clampElapsed m e = Duration.min e (Duration.from_millis (1000 / m)) ∧
       (clampElapsed m e).lexLE (Duration.from_millis (1000 / m))) ∧
    (∀ (s : EngineState) (e : Duration),
       Engine.advance s e = smoothTimestep s (clampElapsed s.min_fps e)) ∧
    (Engine.advance ⟨10, 0, [], ⟨0, 0⟩⟩ (Duration.from_millis 250)).timestep =
      Duration.from_millis 100 := by
  refine ⟨?_, fun s e => rfl, by decide⟩
  intro m e hm
  constructor
  · simp [clampElapsed, hm]
  · simp only [clampElapsed, hm, if_pos]
    exact duration_min_lexLE e _

/-- Witness for C8 at `min_fps = 10` and a raw elapsed time of 250 ms. -/
theorem C8_min_fps_clamp_witness :
    clampElapsed 10 (Duration.from_millis 250) =
      Duration.min (Duration.from_millis 250) (Duration.from_millis (1000 / 10)) ∧
    (clampElapsed 10 (Duration.from_millis 250)).lexLE
      (Duration.from_millis (1000 / 10)) :=
  (C8_min_fps_clamp.1 10 (Duration.from_millis 250) (by decide))

/-! ## C10: get_fps -/

/-- C10: `Engine::get_fps` depends only on the sub-second nanosecond
component of the stored timestep: it returns 0 exactly when that
component is 0 — including for a timestep of exactly 1 s — and a
non-zero value for any non-zero component (the component is below 10^9
by the `Duration` invariant); the whole-second field never influences
the result. -/
theorem C10_get_fps :
    (∀ s : Nat, Engine.get_fps ⟨s, 0⟩ = 0) ∧
    Engine.get_fps ⟨1, 0⟩ = 0 ∧
    (∀ s n : Nat, 0 < n → n < 1000000000 → Engine.get_fps ⟨s, n⟩ ≠ 0) ∧
    (∀ s t n : Nat, Engine.get_fps ⟨s, n⟩ = Engine.get_fps ⟨t, n⟩) := by
  refine ⟨fun s => rfl, rfl, ?_, fun s t n => rfl⟩
  intro s n hn hlt
  have hfps : Engine.get_fps ⟨s, n⟩ = 1000000000 / n := by
    unfold Engine.get_fps
    exact if_neg hn.ne'
  rw [hfps]
  exact (Nat.div_pos (by omega) hn).ne'

/-- Witness for C10: a timestep of half a second gives a non-zero fps;
a timestep of exactly 1 s gives 0. -/
theorem C10_get_fps_witness :
    Engine.get_fps ⟨0, 500000000⟩ ≠ 0 ∧ Engine.get_fps ⟨2, 0⟩ = 0 :=
  ⟨C10_get_fps.2.2.1 0 500000000 (by decide) (by decide),
   C10_get_fps.1 2⟩

/-! ## C7: submit -/

/-- C7: `Device::submit` against an unoccupied view slot fails with
`InvalidHandle` before any mutation (the error result hands the caller
back the unchanged device); against an occupied slot it succeeds and
appends exactly one `DrawCall` carrying the given priority, pipeline,
buffer pointers and range to that view's queue, leaving every other
view slot unchanged. -/
theorem C7_submit (d : Device) (priority : Nat) (view pipeline : Handle)
    (textures uniforms : Nat) (vb : Handle) (ib : Option Handle)
    (primitive from_ len : Nat) :
    (d.views.get view = none →
      d.submit priority view pipeline textures uniforms vb ib primitive from_ len =
        .error .InvalidHandle) ∧
    (∀ vo, d.views.get view = some vo →
      d.submit priority view pipeline textures uniforms vb ib primitive from_ len =
        .ok { d with views :=
          (d.views.set view
            { vo with drawcalls := vo.drawcalls ++
                [⟨priority, view, pipeline, uniforms, textures, vb, ib, primitive,
                  from_, len⟩] }) } ∧
      (({ d with views :=
          (d.views.set view
            { vo with drawcalls := vo.drawcalls ++
                [⟨priority, view, pipeline, uniforms, textures, vb, ib, primitive,
                  from_, len⟩] }) } : Device).views.get view =
        some { vo with drawcalls := vo.drawcalls ++
                [⟨priority, view, pipeline, uniforms, textures, vb, ib, primitive,
                  from_, len⟩] }) ∧
      (∀ h' : Handle, h'.index ≠ view.index →
        ({ d with views :=
          (d.views.set view
            { vo with drawcalls := vo.drawcalls ++
                [⟨priority, view, pipeline, uniforms, textures, vb, ib, primitive,
                  from_, len⟩] }) } : Device).views.get h' = d.views.get h')) := by
  constructor
  · intro hnone
    simp [Device.submit, hnone]
  · intro vo hsome
    refine ⟨?_, ?_, ?_⟩
    · simp [Device.submit, hsome]
    · exact dataVec_get_set d.views view _
    · intro h' hne
      exact dataVec_get_set_ne d.views view h' _ hne

/-- Witness for C7 on a device with one view at slot 0 and one at slot
1: submitting to an unoccupied slot fails with `InvalidHandle`;
submitting to slot 0 appends the draw call there and leaves slot 1
untouched. -/
theorem C7_submit_witness :
    occupiedDevice.submit 3 ⟨5, 0⟩ ⟨0, 0⟩ 0 0 ⟨0, 0⟩ none 0 0 6 =
      .error .InvalidHandle ∧
    occupiedDevice.submit 3 ⟨0, 0⟩ ⟨0, 0⟩ 0 0 ⟨0, 0⟩ none 0 0 6 =
      .ok { occupiedDevice with views :=
        (occupiedDevice.views.set ⟨0, 0⟩
          { drawcalls := [⟨3, ⟨0, 0⟩, ⟨0, 0⟩, 0, 0, ⟨0, 0⟩, none, 0, 0, 6⟩],
            setup := ⟨none, 0, false⟩ }) } :=
  ⟨(C7_submit occupiedDevice 3 ⟨5, 0⟩ ⟨0, 0⟩ 0 0 ⟨0, 0⟩ none 0 0 6).1 (by decide),
   ((C7_submit occupiedDevice 3 ⟨0, 0⟩ ⟨0, 0⟩ 0 0 ⟨0, 0⟩ none 0 0 6).2
      ⟨[], ⟨none, 0, false⟩⟩ (by decide)).1⟩

end Crayon
